import Mathlib

/-!
# Verification of `FactorVAE/nar_data.py`

A shallow embedding of the data-loading layer of the
Neural-Analogical-Reasoning-FactorVAE repository
(`src/FactorVAE/nar_data.py`), together with proofs about it.

The file embeds:

* `read_image` — modelled as a lookup in an explicit file system
  (`FS`), returning the decoded image's shape and its source path;
* `AnalogicalReasoningDataset` (`__init__`, `__len__`, `__getitem__`),
  the "Problem Loader" of the specification;
* `nar_Custom_Dataset` (`__init__`, `__getitem__`, `__len__`), the
  "Flattened Task Dataset" of the specification.

Modelling conventions:

* An image tensor is abstracted as its shape (channels, height, width)
  together with the path of the file it was decoded from (`src`): every
  claim about image values reduces to "the image decoded from this file,
  transformed in this way", so pixel data beyond identity of origin is
  not needed.
* The file system is a pure map from path strings to the shape of the
  image stored there (`none` = file absent), making `read_image` a pure
  function.
* Fallible Python operations return `Except Err _`; Python's sequence
  indexing (`xs[i]`, which accepts negative indices counting from the
  end and raises `IndexError` otherwise) is `pyGet`; `torch.stack`
  (which raises on an empty input or mismatched shapes) is
  `torch_stack` / `torch_stack2`; Python list comprehensions over
  `range(n)` become index-carrying structural recursion or `mapE`
  (monadic map in `Except`, evaluated left to right exactly as the
  comprehension is).
-/

set_option autoImplicit false

namespace NarData

/-- Errors raised by the Python code: `IndexError` from sequence
indexing, `FileNotFoundError`/decode errors from `read_image`, and
`RuntimeError` from `torch.stack` on empty or shape-mismatched input. -/
inductive Err where
  | indexError
  | fileNotFound
  | stackError
  deriving Repr, DecidableEq

/-- An image tensor, abstracted as its shape `(c, h, w)` plus the path
of the file whose decoding produced it (`transforms.ToTensor()` yields a
channel-first tensor; pixel values are abstracted away, the origin path
standing for the pixel content). -/
structure Img where
  c : Nat
  h : Nat
  w : Nat
  src : String
  deriving Repr, DecidableEq

/-- The file system: maps a path to the shape of the PNG stored there,
or `none` when the file is missing/unreadable. -/
def FS : Type := String → Option (Nat × Nat × Nat)

/-- `read_image(path)` from the source:
`transforms.ToTensor()(Image.open(str(path)))`.  Decodes the file at
`path` into a tensor; fails if the file is absent. -/
def read_image (fs : FS) (path : String) : Except Err Img :=
  match fs path with
  | some s => .ok ⟨s.1, s.2.1, s.2.2, path⟩
  | none => .error .fileNotFound

/-- Python `xs[i]` index resolution for a sequence of length `len`:
a non-negative index must be `< len`; a negative index `i` counts from
the end (`len + i`) and must resolve to a non-negative position. -/
def pyIndex (len : Nat) (i : Int) : Option Nat :=
  if 0 ≤ i then
    if i < (len : Int) then some i.toNat else none
  else
    if 0 ≤ (len : Int) + i then some ((len : Int) + i).toNat else none

/-- Python `xs[i]` on a list (also the behaviour of indexing the first
dimension of a torch tensor): negative indices wrap, out-of-range
raises `IndexError`. -/
def pyGet {α : Type} (l : List α) (i : Int) : Except Err α :=
  match pyIndex l.length i with
  | some n =>
    match l[n]? with
    | some a => .ok a
    | none => .error .indexError
  | none => .error .indexError

/-- Python `xs[i]` for an index known to be a non-negative `int`
(loop counters produced by `range`). -/
def natGet {α : Type} (l : List α) (i : Nat) : Except Err α :=
  match l[i]? with
  | some a => .ok a
  | none => .error .indexError

/-- Monadic map in `Except`, evaluated left to right: the translation
of a Python list comprehension whose element expression may raise. -/
def mapE {α β : Type} (f : α → Except Err β) : List α → Except Err (List β)
  | [] => .ok []
  | a :: as => do
    let b ← f a
    let bs ← mapE f as
    pure (b :: bs)

/-- The shape of an image tensor. -/
def imgShape (i : Img) : Nat × Nat × Nat := (i.c, i.h, i.w)

/-- `torch.stack` on a list of equal-shaped image tensors: raises on an
empty list or on mismatched shapes, otherwise the stacked tensor is the
list of its rows. -/
def torch_stack (l : List Img) : Except Err (List Img) :=
  match l with
  | [] => .error .stackError
  | x :: xs =>
    if xs.all (fun y => decide (imgShape y = imgShape x)) then .ok (x :: xs)
    else .error .stackError

/-- The shape of a stacked tensor (its rows all share a shape when the
stack succeeded). -/
def stackedShape (l : List Img) : Nat × List (Nat × Nat × Nat) :=
  (l.length, l.map imgShape)

/-- `torch.stack` on a list of stacked tensors (each itself produced by
an inner `torch.stack`, hence internally uniform): raises on an empty
list or on mismatched shapes. -/
def torch_stack2 (l : List (List Img)) : Except Err (List (List Img)) :=
  match l with
  | [] => .error .stackError
  | x :: xs =>
    if xs.all (fun y => decide (stackedShape y = stackedShape x)) then .ok (x :: xs)
    else .error .stackError

/-- The symbolic form of one example, as parsed from the JSON manifest:
a 3-tuple `[input, options, solution]` whose `input` and `options` are
symbolic identifiers and whose `solution` is a Python `int`.  The source
wraps it as `Example = namedtuple('Example', ['input','options','solution'])`. -/
structure SymExample where
  input : String
  options : List String
  solution : Int
  deriving Repr, DecidableEq

/-- The symbolic form of one problem, as parsed from the JSON manifest:
a 5-tuple `[examples, query, query_options, solution, program]`.  The
source wraps it as
`Problem = namedtuple('Problem', ['examples','query','query_options','solution','program'])`. -/
structure SymProblem where
  examples : List SymExample
  query : String
  query_options : List String
  solution : Int
  program : String
  deriving Repr, DecidableEq

/-- The hydrated form of one example: images loaded, solution index
copied through from the symbolic form. -/
structure HydExample where
  input : Img
  options : List Img
  solution : Int
  deriving Repr, DecidableEq

/-- The hydrated form of one problem: images loaded, `solution` and
`program` copied through from the symbolic form. -/
structure HydProblem where
  examples : List HydExample
  query : Img
  query_options : List Img
  solution : Int
  program : String
  deriving Repr, DecidableEq

/-- `self.image_dir/f"{idx}_{eidx}_input.png"`. -/
def input_path (dir : String) (idx : Int) (eidx : Nat) : String :=
  dir ++ "/" ++ toString idx ++ "_" ++ toString eidx ++ "_input.png"

/-- `self.image_dir/f"{idx}_{eidx}_{oidx}_option.png"`. -/
def option_path (dir : String) (idx : Int) (eidx oidx : Nat) : String :=
  dir ++ "/" ++ toString idx ++ "_" ++ toString eidx ++ "_" ++ toString oidx ++ "_option.png"

/-- `self.image_dir/f"{idx}_query.png"`. -/
def query_path (dir : String) (idx : Int) : String :=
  dir ++ "/" ++ toString idx ++ "_query.png"

/-- `self.image_dir/f"{idx}_{oidx}_query_option.png"`. -/
def query_option_path (dir : String) (idx : Int) (oidx : Nat) : String :=
  dir ++ "/" ++ toString idx ++ "_" ++ toString oidx ++ "_query_option.png"

/-- The inner comprehension of `__getitem__`'s hydrated form:
`[read_image(self.image_dir/f"{idx}_{eidx}_{oidx}_option.png") for oidx in range(len(problem[0][eidx][1]))]`,
written as structural recursion carrying the running option index. -/
def hydrateOptions (fs : FS) (dir : String) (idx : Int) (eidx : Nat) :
    Nat → List String → Except Err (List Img)
  | _, [] => .ok []
  | oidx, _ :: rest => do
    let img ← read_image fs (option_path dir idx eidx oidx)
    let imgs ← hydrateOptions fs dir idx eidx (oidx + 1) rest
    pure (img :: imgs)

/-- The outer comprehension of `__getitem__`'s hydrated form:
for `eidx in range(len(problem[0]))`, build
`Example._make((read_image(…input.png), [options…], problem[0][eidx][2]))`,
written as structural recursion carrying the running example index. -/
def hydrateExamples (fs : FS) (dir : String) (idx : Int) :
    Nat → List SymExample → Except Err (List HydExample)
  | _, [] => .ok []
  | eidx, e :: rest => do
    let inp ← read_image fs (input_path dir idx eidx)
    let opts ← hydrateOptions fs dir idx eidx 0 e.options
    let hrest ← hydrateExamples fs dir idx (eidx + 1) rest
    pure (⟨inp, opts, e.solution⟩ :: hrest)

/-- The query-option comprehension of `__getitem__`'s hydrated form:
`[read_image(self.image_dir/f"{idx}_{oidx}_query_option.png") for oidx in range(len(problem[2]))]`. -/
def hydrateQueryOptions (fs : FS) (dir : String) (idx : Int) :
    Nat → List String → Except Err (List Img)
  | _, [] => .ok []
  | oidx, _ :: rest => do
    let img ← read_image fs (query_option_path dir idx oidx)
    let imgs ← hydrateQueryOptions fs dir idx (oidx + 1) rest
    pure (img :: imgs)

/-- The Problem Loader, `AnalogicalReasoningDataset`.  Its `__init__`
stores `image_dir`, `size = size2 - size1` and the slice
`json.load(f)[size1:size2]` of the manifest.  The manifest is the parsed
JSON document (a list of problems); file/parse errors of the manifest
itself are outside the claims considered here. -/
structure AnalogicalReasoningDataset where
  problems : List SymProblem
  image_dir : String
  size : Int
  deriving Repr, DecidableEq

namespace AnalogicalReasoningDataset

/-- `__init__(problems_file, image_dir, size1, size2)`:
`self.size = size2 - size1`; `self.problems = json.load(f)[size1:size2]`
(a Python slice with non-negative bounds clamps to the list length). -/
def init (manifest : List SymProblem) (image_dir : String)
    (size1 size2 : Nat) : AnalogicalReasoningDataset :=
  { problems := (manifest.take size2).drop size1
    image_dir := image_dir
    size := (size2 : Int) - (size1 : Int) }

/-- `__len__`: `return len(self.problems)` — note: the length of the
retained slice, not the stored `self.size`. -/
def length (d : AnalogicalReasoningDataset) : Nat :=
  d.problems.length

/-- `__getitem__(idx)`: `problem = self.problems[idx]`, then the pair
`(Problem._make(symbolic fields), Problem._make(hydrated fields))`.
The symbolic component re-wraps the raw fields (the identity on the
typed manifest); the hydrated component reads the images by the
filename convention and copies `solution` and `program` through. -/
def getitem (fs : FS) (d : AnalogicalReasoningDataset) (idx : Int) :
    Except Err (SymProblem × HydProblem) := do
  let problem ← pyGet d.problems idx
  let hexamples ← hydrateExamples fs d.image_dir idx 0 problem.examples
  let hquery ← read_image fs (query_path d.image_dir idx)
  let hqopts ← hydrateQueryOptions fs d.image_dir idx 0 problem.query_options
  pure (problem,
    { examples := hexamples
      query := hquery
      query_options := hqopts
      solution := problem.solution
      program := problem.program })

end AnalogicalReasoningDataset

/-- `transforms.Grayscale(num_output_channels=1)`: the deterministic
luminance reduction of a colour tensor to a single channel; the spatial
size and the origin of the pixel data are unchanged. -/
def Grayscale (i : Img) : Img :=
  { c := 1, h := i.h, w := i.w, src := i.src }

/-- `self.data.__getitem__(idx)[1]`: the hydrated component of a
Problem Loader access. -/
def getHyd (fs : FS) (d : AnalogicalReasoningDataset) (idx : Int) :
    Except Err HydProblem := do
  let p ← AnalogicalReasoningDataset.getitem fs d idx
  pure p.2

/-- The train-mode `images` element:
`transform(self.data.__getitem__(task)[1].examples[i].input)`. -/
def trainImageItem (fs : FS) (data : AnalogicalReasoningDataset)
    (task i : Nat) : Except Err Img := do
  let hp ← getHyd fs data (task : Int)
  let ex ← natGet hp.examples i
  pure (Grayscale ex.input)

/-- The train-mode inner `options` element:
`transform(self.data.__getitem__(task)[1].examples[i].options[j])`. -/
def trainOptionItem (fs : FS) (data : AnalogicalReasoningDataset)
    (task i j : Nat) : Except Err Img := do
  let hp ← getHyd fs data (task : Int)
  let ex ← natGet hp.examples i
  let o ← natGet ex.options j
  pure (Grayscale o)

/-- The train-mode `solution` element:
`transform(self.data.__getitem__(task)[1].examples[i].options[self.data.__getitem__(task)[1].examples[i].solution])`
(note the element selected by the example's own `solution` index, with
Python indexing semantics). -/
def trainSolutionItem (fs : FS) (data : AnalogicalReasoningDataset)
    (task i : Nat) : Except Err Img := do
  let hp ← getHyd fs data (task : Int)
  let ex ← natGet hp.examples i
  let o ← pyGet ex.options ex.solution
  pure (Grayscale o)

/-- The evaluation-mode `images` element:
`transform(self.data.__getitem__(task)[1].query)`. -/
def evalImageItem (fs : FS) (data : AnalogicalReasoningDataset)
    (task : Nat) : Except Err Img := do
  let hp ← getHyd fs data (task : Int)
  pure (Grayscale hp.query)

/-- The evaluation-mode inner `options` element:
`transform(self.data.__getitem__(task)[1].query_options[j])`. -/
def evalOptionItem (fs : FS) (data : AnalogicalReasoningDataset)
    (task j : Nat) : Except Err Img := do
  let hp ← getHyd fs data (task : Int)
  let o ← natGet hp.query_options j
  pure (Grayscale o)

/-- The evaluation-mode `solution` element:
`transform(self.data.__getitem__(task)[1].query_options[self.data.__getitem__(task)[1].solution])`. -/
def evalSolutionItem (fs : FS) (data : AnalogicalReasoningDataset)
    (task : Nat) : Except Err Img := do
  let hp ← getHyd fs data (task : Int)
  let o ← pyGet hp.query_options hp.solution
  pure (Grayscale o)

/-- The Flattened Task Dataset, `nar_Custom_Dataset`: three stacked
tensors built eagerly in `__init__` and held for the lifetime of the
object. -/
structure nar_Custom_Dataset where
  images : List Img
  options : List (List Img)
  solution : List Img
  deriving Repr, DecidableEq

namespace nar_Custom_Dataset

/-- `__init__(num_task, train, json_file, image_file)`.  Builds
`self.data = AnalogicalReasoningDataset(json_file, image_file, 0, num_task)`,
then in train mode reads `num_examples`/`num_options` from problem 0's
hydrated form and stacks, for `task in range(num_task)` and
`i in range(num_examples)`:
`transform(data[task][1].examples[i].input)`,
`torch.stack([transform(data[task][1].examples[i].options[j]) for j in range(num_options)])`,
and `transform(data[task][1].examples[i].options[data[task][1].examples[i].solution])`;
in evaluation mode it reads `num_options` from problem 0's hydrated
`query_options` and stacks, for `task in range(num_task)`:
`transform(query)`, the stacked `transform(query_options[j])`, and
`transform(query_options[solution])`.  `manifest` is the parsed content
of `json_file`. -/
def init (fs : FS) (manifest : List SymProblem) (image_file : String)
    (num_task : Nat) (train : Bool) : Except Err nar_Custom_Dataset := do
  let data := AnalogicalReasoningDataset.init manifest image_file 0 num_task
  if train then do
    let p0 ← getHyd fs data 0
    let num_examples := p0.examples.length
    let ex0 ← natGet p0.examples 0
    let num_options := ex0.options.length
    let imageRows ← mapE (fun task =>
        mapE (trainImageItem fs data task) (List.range num_examples))
      (List.range num_task)
    let images ← torch_stack imageRows.flatten
    let optionRows ← mapE (fun task =>
        mapE (fun i => do
            let inner ← mapE (trainOptionItem fs data task i) (List.range num_options)
            torch_stack inner)
          (List.range num_examples))
      (List.range num_task)
    let options ← torch_stack2 optionRows.flatten
    let solRows ← mapE (fun task =>
        mapE (trainSolutionItem fs data task) (List.range num_examples))
      (List.range num_task)
    let solution ← torch_stack solRows.flatten
    pure ⟨images, options, solution⟩
  else do
    let p0 ← getHyd fs data 0
    let num_options := p0.query_options.length
    let imageRow ← mapE (evalImageItem fs data) (List.range num_task)
    let images ← torch_stack imageRow
    let optionRow ← mapE (fun task => do
        let inner ← mapE (evalOptionItem fs data task) (List.range num_options)
        torch_stack inner)
      (List.range num_task)
    let options ← torch_stack2 optionRow
    let solRow ← mapE (evalSolutionItem fs data) (List.range num_task)
    let solution ← torch_stack solRow
    pure ⟨images, options, solution⟩

/-- `__getitem__(idx)`:
`return (self.images[idx], self.options[idx], self.solution[idx])`
(indexing the first dimension of each stacked tensor; negative indices
wrap, out-of-range raises `IndexError`). -/
def getitem (n : nar_Custom_Dataset) (idx : Int) :
    Except Err (Img × List Img × Img) := do
  let i ← pyGet n.images idx
  let o ← pyGet n.options idx
  let s ← pyGet n.solution idx
  pure (i, o, s)

/-- The method `__getitem__` as an explicit state transformer on
`self`: the body contains no assignment, so the post-state is the
receiver unchanged and the value is `getitem`. -/
def getitemStep (n : nar_Custom_Dataset) (idx : Int) :
    Except Err ((Img × List Img × Img) × nar_Custom_Dataset) := do
  let r ← getitem n idx
  pure (r, n)

/-- `__len__`: `return len(self.images)` — the number of rows of the
stacked `images` tensor. -/
def length (n : nar_Custom_Dataset) : Nat :=
  n.images.length

end nar_Custom_Dataset


/-! ## Concrete inputs used to evaluate the development -/

/-- A file system on which every path resolves to a 3-channel 4x4 PNG:
used to evaluate the operations on concrete inputs. -/
def allFiles : FS := fun _ => some (3, 4, 4)

/-- A concrete symbolic example with two options. -/
def demoExample : SymExample :=
  { input := "in0", options := ["o0", "o1"], solution := 1 }

/-- A concrete symbolic problem: one example, two query options. -/
def demoProblem : SymProblem :=
  { examples := [demoExample]
    query := "q"
    query_options := ["qo0", "qo1"]
    solution := 0
    program := "prog" }

/-- A concrete two-problem manifest. -/
def demoManifest : List SymProblem := [demoProblem, demoProblem]

/-- The hydrated form of `demoManifest`'s problem 0 over `allFiles`
with image directory `"imgs"`. -/
def demoHyd0 : HydProblem :=
  { examples := [{ input := ⟨3, 4, 4, "imgs/0_0_input.png"⟩
                   options := [⟨3, 4, 4, "imgs/0_0_0_option.png"⟩,
                     ⟨3, 4, 4, "imgs/0_0_1_option.png"⟩]
                   solution := 1 }]
    query := ⟨3, 4, 4, "imgs/0_query.png"⟩
    query_options := [⟨3, 4, 4, "imgs/0_0_query_option.png"⟩,
      ⟨3, 4, 4, "imgs/0_1_query_option.png"⟩]
    solution := 0
    program := "prog" }

/-- Whether an `Except` computation succeeded. -/
def isOk {α : Type} : Except Err α → Bool
  | .ok _ => true
  | .error _ => false

/-- The Flattened Task Dataset built in train mode over `demoManifest`
with `taskCount = 2`, written out explicitly. -/
def demoNarTrain : nar_Custom_Dataset :=
  { images := [⟨1, 4, 4, "imgs/0_0_input.png"⟩, ⟨1, 4, 4, "imgs/1_0_input.png"⟩]
    options := [[⟨1, 4, 4, "imgs/0_0_0_option.png"⟩, ⟨1, 4, 4, "imgs/0_0_1_option.png"⟩],
      [⟨1, 4, 4, "imgs/1_0_0_option.png"⟩, ⟨1, 4, 4, "imgs/1_0_1_option.png"⟩]]
    solution := [⟨1, 4, 4, "imgs/0_0_1_option.png"⟩, ⟨1, 4, 4, "imgs/1_0_1_option.png"⟩] }

/-- The Flattened Task Dataset built in evaluation mode over
`demoManifest` with `taskCount = 2`, written out explicitly. -/
def demoNarEval : nar_Custom_Dataset :=
  { images := [⟨1, 4, 4, "imgs/0_query.png"⟩, ⟨1, 4, 4, "imgs/1_query.png"⟩]
    options := [[⟨1, 4, 4, "imgs/0_0_query_option.png"⟩, ⟨1, 4, 4, "imgs/0_1_query_option.png"⟩],
      [⟨1, 4, 4, "imgs/1_0_query_option.png"⟩, ⟨1, 4, 4, "imgs/1_1_query_option.png"⟩]]
    solution := [⟨1, 4, 4, "imgs/0_0_query_option.png"⟩, ⟨1, 4, 4, "imgs/1_0_query_option.png"⟩] }

/-- The hydrated example of `demoManifest`'s problem 1 over `allFiles`. -/
def demoHydEx1 : HydExample :=
  { input := ⟨3, 4, 4, "imgs/1_0_input.png"⟩
    options := [⟨3, 4, 4, "imgs/1_0_0_option.png"⟩, ⟨3, 4, 4, "imgs/1_0_1_option.png"⟩]
    solution := 1 }

/-- The hydrated form of `demoManifest`'s problem 1 over `allFiles`. -/
def demoHyd1 : HydProblem :=
  { examples := [demoHydEx1]
    query := ⟨3, 4, 4, "imgs/1_query.png"⟩
    query_options := [⟨3, 4, 4, "imgs/1_0_query_option.png"⟩,
      ⟨3, 4, 4, "imgs/1_1_query_option.png"⟩]
    solution := 0
    program := "prog" }

/-- A symbolic example violating the solution invariant:
`solution = 1 = len(options)`. -/
def badExample : SymExample := { input := "in0", options := ["o0"], solution := 1 }

/-- A symbolic problem containing `badExample`. -/
def badProblem : SymProblem :=
  { examples := [badExample]
    query := "q"
    query_options := ["qo0"]
    solution := 0
    program := "p" }

/-- The hydrated form of `badProblem` at index 0 over `allFiles`: the
out-of-range `solution = 1` is copied through unvalidated. -/
def badHyd : HydProblem :=
  { examples := [{ input := ⟨3, 4, 4, "imgs/0_0_input.png"⟩
                   options := [⟨3, 4, 4, "imgs/0_0_0_option.png"⟩]
                   solution := 1 }]
    query := ⟨3, 4, 4, "imgs/0_query.png"⟩
    query_options := [⟨3, 4, 4, "imgs/0_0_query_option.png"⟩]
    solution := 0
    program := "p" }

/-- A problem with two examples (unlike `demoProblem`'s one). -/
def demoProblem2 : SymProblem :=
  { examples := [demoExample, demoExample]
    query := "q2"
    query_options := ["qo0", "qo1"]
    solution := 0
    program := "prog2" }

/-- A manifest whose problems have different example counts
(problem 0 has 1 example, problem 1 has 2). -/
def unevenManifest : List SymProblem := [demoProblem, demoProblem2]

/-- Row 0 of `demoNarTrain` as a `(image, options, solution)` triple. -/
def demoRow0 : Img × List Img × Img :=
  (⟨1, 4, 4, "imgs/0_0_input.png"⟩,
    [⟨1, 4, 4, "imgs/0_0_0_option.png"⟩, ⟨1, 4, 4, "imgs/0_0_1_option.png"⟩],
    ⟨1, 4, 4, "imgs/0_0_1_option.png"⟩)

/-! ## Basic facts about the `Except` combinators -/

theorem exc_bind_ok {α β : Type} (a : α) (g : α → Except Err β) :
    (Except.ok a >>= g) = g a := rfl

theorem exc_bind_error {α β : Type} (e : Err) (g : α → Except Err β) :
    ((Except.error e : Except Err α) >>= g) = Except.error e := rfl

theorem exc_pure {α : Type} (a : α) : (pure a : Except Err α) = Except.ok a := rfl

theorem bind_ok_iff {α β : Type} {ma : Except Err α} {g : α → Except Err β} {r : β} :
    (ma >>= g) = .ok r ↔ ∃ a, ma = .ok a ∧ g a = .ok r := by
  cases ma with
  | error e => simp [exc_bind_error]
  | ok v =>
    rw [exc_bind_ok]
    constructor
    · intro h
      exact ⟨v, rfl, h⟩
    · rintro ⟨a, ha, h⟩
      cases ha
      exact h

theorem mapE_ok_cons_iff {α β : Type} {f : α → Except Err β} {a : α} {as : List α}
    {r : List β} :
    mapE f (a :: as) = .ok r ↔
      ∃ b bs, f a = .ok b ∧ mapE f as = .ok bs ∧ r = b :: bs := by
  show (f a >>= fun b => mapE f as >>= fun bs => pure (b :: bs)) = .ok r ↔ _
  constructor
  · intro h
    rcases bind_ok_iff.mp h with ⟨b, hb, h⟩
    rcases bind_ok_iff.mp h with ⟨bs, hbs, h⟩
    rw [exc_pure] at h
    cases h
    exact ⟨b, bs, hb, hbs, rfl⟩
  · rintro ⟨b, bs, hb, hbs, rfl⟩
    rw [hb, exc_bind_ok, hbs, exc_bind_ok, exc_pure]

theorem mapE_ok_length {α β : Type} {f : α → Except Err β} :
    ∀ {l : List α} {r : List β}, mapE f l = .ok r → r.length = l.length
  | [], r, h => by
    cases h
    rfl
  | a :: as, r, h => by
    rcases mapE_ok_cons_iff.mp h with ⟨b, bs, _, hbs, rfl⟩
    simp [mapE_ok_length hbs]

theorem mapE_ok_getElem {α β : Type} {f : α → Except Err β} :
    ∀ {l : List α} {r : List β}, mapE f l = .ok r →
      ∀ {i : Nat} {a : α}, l[i]? = some a → ∃ b, r[i]? = some b ∧ f a = .ok b
  | [], _, h, i, a, ha => by simp at ha
  | x :: xs, r, h, i, a, ha => by
    rcases mapE_ok_cons_iff.mp h with ⟨b, bs, hb, hbs, rfl⟩
    cases i with
    | zero =>
      simp at ha
      subst ha
      exact ⟨b, by simp, hb⟩
    | succ j =>
      simp only [List.getElem?_cons_succ] at ha ⊢
      exact mapE_ok_getElem hbs ha

theorem mapE_ok_mem {α β : Type} {f : α → Except Err β} :
    ∀ {l : List α} {r : List β}, mapE f l = .ok r →
      ∀ {a : α}, a ∈ l → ∃ b, f a = .ok b
  | [], _, _, a, ha => by simp at ha
  | x :: xs, r, h, a, ha => by
    rcases mapE_ok_cons_iff.mp h with ⟨b, bs, hb, hbs, rfl⟩
    rcases List.mem_cons.mp ha with rfl | ha
    · exact ⟨b, hb⟩
    · exact mapE_ok_mem hbs ha


theorem mapE_ok_mem_rev {α β : Type} {f : α → Except Err β} :
    ∀ {l : List α} {r : List β}, mapE f l = .ok r →
      ∀ {b : β}, b ∈ r → ∃ a ∈ l, f a = .ok b
  | [], r, h, b, hb => by
    cases h
    simp at hb
  | x :: xs, r, h, b, hb => by
    rcases mapE_ok_cons_iff.mp h with ⟨c, cs, hc, hcs, rfl⟩
    rcases List.mem_cons.mp hb with rfl | hb
    · exact ⟨x, List.mem_cons_self x xs, hc⟩
    · rcases mapE_ok_mem_rev hcs hb with ⟨a, ha, hfa⟩
      exact ⟨a, List.mem_cons_of_mem x ha, hfa⟩

theorem mapE_range_ok_getElem {β : Type} {f : Nat → Except Err β} {n : Nat}
    {r : List β} (h : mapE f (List.range n) = .ok r) {i : Nat} (hi : i < n) :
    ∃ b, r[i]? = some b ∧ f i = .ok b :=
  mapE_ok_getElem h (by simp [List.getElem?_range hi])

theorem torch_stack_ok {l r : List Img} (h : torch_stack l = .ok r) :
    r = l ∧ l ≠ [] := by
  cases l with
  | nil => cases h
  | cons x xs =>
    simp only [torch_stack] at h
    split at h
    · cases h
      exact ⟨rfl, by simp⟩
    · cases h

theorem torch_stack2_ok {l r : List (List Img)} (h : torch_stack2 l = .ok r) :
    r = l ∧ l ≠ [] := by
  cases l with
  | nil => cases h
  | cons x xs =>
    simp only [torch_stack2] at h
    split at h
    · cases h
      exact ⟨rfl, by simp⟩
    · cases h

/-! ## Facts about `flatten` on uniform-length rows -/

theorem flatten_length_uniform {α : Type} {E : Nat} :
    ∀ {rows : List (List α)}, (∀ x ∈ rows, x.length = E) →
      rows.flatten.length = rows.length * E
  | [], _ => by simp
  | x :: xs, h => by
    have hx : x.length = E := h x (List.mem_cons_self x xs)
    have ih := flatten_length_uniform (fun y hy => h y (List.mem_cons_of_mem x hy))
    simp only [List.flatten_cons, List.length_append, List.length_cons, ih, hx,
      Nat.succ_mul]
    ring

theorem flatten_getElem_uniform {α : Type} {E : Nat} :
    ∀ {rows : List (List α)}, (∀ x ∈ rows, x.length = E) →
      ∀ {t i : Nat}, t < rows.length → i < E →
        rows.flatten[t * E + i]? = rows[t]?.bind (fun row => row[i]?)
  | [], _, t, i, ht, _ => by simp at ht
  | x :: xs, h, t, i, ht, hi => by
    have hx : x.length = E := h x (List.mem_cons_self x xs)
    cases t with
    | zero =>
      have hlt : 0 * E + i < x.length := by
        rw [hx]
        omega
      rw [List.flatten_cons, List.getElem?_append_left hlt]
      simp only [List.getElem?_cons_zero, Option.bind_some]
      congr 1
      omega
    | succ t =>
      have hidx : (t + 1) * E + i = x.length + (t * E + i) := by
        rw [hx]
        ring
      rw [hidx, List.flatten_cons, List.getElem?_append_right (Nat.le_add_right _ _),
        Nat.add_sub_cancel_left]
      simp only [List.getElem?_cons_succ]
      exact flatten_getElem_uniform
        (fun y hy => h y (List.mem_cons_of_mem x hy)) (by simpa using ht) hi

theorem pyGet_oob {α : Type} (l : List α) (idx : Int)
    (h : (l.length : Int) ≤ idx ∨ idx < -(l.length : Int)) :
    pyGet l idx = .error .indexError := by
  have hnone : pyIndex l.length idx = none := by
    unfold pyIndex
    rcases h with h | h
    · rw [if_pos (by omega), if_neg (by omega)]
    · rw [if_neg (by omega), if_neg (by omega)]
  unfold pyGet
  rw [hnone]

theorem pyGet_natCast {α : Type} (l : List α) (i : Nat) :
    pyGet l (i : Int) = natGet l i := by
  unfold pyGet pyIndex natGet
  rw [if_pos (by omega)]
  by_cases h : i < l.length
  · rw [if_pos (by exact_mod_cast h)]
    simp
  · rw [if_neg (by exact_mod_cast h), List.getElem?_eq_none (Nat.le_of_not_lt h)]

/-! ## Characterisation of hydration and `__getitem__` -/

theorem hydrateOptions_ok {fs : FS} {dir : String} {idx : Int} {eidx : Nat} :
    ∀ {k : Nat} {opts : List String} {r : List Img},
      hydrateOptions fs dir idx eidx k opts = .ok r →
      r.length = opts.length ∧
        ∀ j : Nat, j < opts.length →
          ∃ img, r[j]? = some img ∧
            read_image fs (option_path dir idx eidx (k + j)) = .ok img
  | _, [], _, h => by
    cases h
    exact ⟨rfl, by intro j hj; simp at hj⟩
  | k, s :: rest, r, h => by
    have h' : (read_image fs (option_path dir idx eidx k) >>= fun img =>
        hydrateOptions fs dir idx eidx (k + 1) rest >>= fun imgs =>
        pure (img :: imgs)) = .ok r := h
    rcases bind_ok_iff.mp h' with ⟨img, himg, h2⟩
    rcases bind_ok_iff.mp h2 with ⟨imgs, himgs, h3⟩
    rw [exc_pure] at h3
    cases h3
    rcases hydrateOptions_ok himgs with ⟨hlen, hpt⟩
    refine ⟨by simp [hlen], ?_⟩
    intro j hj
    cases j with
    | zero => exact ⟨img, by simp, by simpa using himg⟩
    | succ j =>
      rcases hpt j (by simpa using hj) with ⟨img2, hr, hread⟩
      refine ⟨img2, by simpa using hr, ?_⟩
      have hk : k + 1 + j = k + (j + 1) := by omega
      rwa [hk] at hread

theorem hydrateQueryOptions_ok {fs : FS} {dir : String} {idx : Int} :
    ∀ {k : Nat} {opts : List String} {r : List Img},
      hydrateQueryOptions fs dir idx k opts = .ok r →
      r.length = opts.length ∧
        ∀ j : Nat, j < opts.length →
          ∃ img, r[j]? = some img ∧
            read_image fs (query_option_path dir idx (k + j)) = .ok img
  | _, [], _, h => by
    cases h
    exact ⟨rfl, by intro j hj; simp at hj⟩
  | k, s :: rest, r, h => by
    have h' : (read_image fs (query_option_path dir idx k) >>= fun img =>
        hydrateQueryOptions fs dir idx (k + 1) rest >>= fun imgs =>
        pure (img :: imgs)) = .ok r := h
    rcases bind_ok_iff.mp h' with ⟨img, himg, h2⟩
    rcases bind_ok_iff.mp h2 with ⟨imgs, himgs, h3⟩
    rw [exc_pure] at h3
    cases h3
    rcases hydrateQueryOptions_ok himgs with ⟨hlen, hpt⟩
    refine ⟨by simp [hlen], ?_⟩
    intro j hj
    cases j with
    | zero => exact ⟨img, by simp, by simpa using himg⟩
    | succ j =>
      rcases hpt j (by simpa using hj) with ⟨img2, hr, hread⟩
      refine ⟨img2, by simpa using hr, ?_⟩
      have hk : k + 1 + j = k + (j + 1) := by omega
      rwa [hk] at hread

theorem hydrateExamples_ok {fs : FS} {dir : String} {idx : Int} :
    ∀ {k : Nat} {exs : List SymExample} {r : List HydExample},
      hydrateExamples fs dir idx k exs = .ok r →
      r.length = exs.length ∧
        ∀ (j : Nat) (e : SymExample), exs[j]? = some e →
          ∃ he, r[j]? = some he ∧
            read_image fs (input_path dir idx (k + j)) = .ok he.input ∧
            hydrateOptions fs dir idx (k + j) 0 e.options = .ok he.options ∧
            he.solution = e.solution
  | _, [], _, h => by
    cases h
    exact ⟨rfl, by intro j e he; simp at he⟩
  | k, e :: rest, r, h => by
    have h' : (read_image fs (input_path dir idx k) >>= fun inp =>
        hydrateOptions fs dir idx k 0 e.options >>= fun opts =>
        hydrateExamples fs dir idx (k + 1) rest >>= fun hrest =>
        pure (⟨inp, opts, e.solution⟩ :: hrest)) = .ok r := h
    rcases bind_ok_iff.mp h' with ⟨inp, hinp, h2⟩
    rcases bind_ok_iff.mp h2 with ⟨opts, hopts, h3⟩
    rcases bind_ok_iff.mp h3 with ⟨hrest, hhrest, h4⟩
    rw [exc_pure] at h4
    cases h4
    rcases hydrateExamples_ok hhrest with ⟨hlen, hpt⟩
    refine ⟨by simp [hlen], ?_⟩
    intro j e2 hj
    cases j with
    | zero =>
      simp at hj
      subst hj
      exact ⟨⟨inp, opts, e.solution⟩, by simp, by simpa using hinp,
        by simpa using hopts, rfl⟩
    | succ j =>
      rcases hpt j e2 (by simpa using hj) with ⟨he, hr, hin, hop, hsol⟩
      refine ⟨he, by simpa using hr, ?_, ?_, hsol⟩
      · have hk : k + 1 + j = k + (j + 1) := by omega
        rwa [hk] at hin
      · have hk : k + 1 + j = k + (j + 1) := by omega
        rwa [hk] at hop

theorem getitem_ok {fs : FS} {d : AnalogicalReasoningDataset} {idx : Int}
    {sym : SymProblem} {hyd : HydProblem}
    (h : d.getitem fs idx = .ok (sym, hyd)) :
    pyGet d.problems idx = .ok sym ∧
      hydrateExamples fs d.image_dir idx 0 sym.examples = .ok hyd.examples ∧
      read_image fs (query_path d.image_dir idx) = .ok hyd.query ∧
      hydrateQueryOptions fs d.image_dir idx 0 sym.query_options = .ok hyd.query_options ∧
      hyd.solution = sym.solution ∧
      hyd.program = sym.program := by
  have h' : (pyGet d.problems idx >>= fun problem =>
      hydrateExamples fs d.image_dir idx 0 problem.examples >>= fun hexamples =>
      read_image fs (query_path d.image_dir idx) >>= fun hquery =>
      hydrateQueryOptions fs d.image_dir idx 0 problem.query_options >>= fun hqopts =>
      pure (problem,
        { examples := hexamples
          query := hquery
          query_options := hqopts
          solution := problem.solution
          program := problem.program })) = .ok (sym, hyd) := h
  rcases bind_ok_iff.mp h' with ⟨p, hp, h2⟩
  rcases bind_ok_iff.mp h2 with ⟨hex, hhex, h3⟩
  rcases bind_ok_iff.mp h3 with ⟨hq, hhq, h4⟩
  rcases bind_ok_iff.mp h4 with ⟨hqo, hhqo, h5⟩
  rw [exc_pure] at h5
  cases h5
  exact ⟨hp, hhex, hhq, hhqo, rfl, rfl⟩

theorem getHyd_ok {fs : FS} {d : AnalogicalReasoningDataset} {idx : Int}
    {hyd : HydProblem} (h : getHyd fs d idx = .ok hyd) :
    ∃ sym, d.getitem fs idx = .ok (sym, hyd) := by
  have h' : (d.getitem fs idx >>= fun p => pure p.2) = .ok hyd := h
  rcases bind_ok_iff.mp h' with ⟨p, hp, h2⟩
  rw [exc_pure] at h2
  cases h2
  exact ⟨p.1, hp⟩


/-! ## Characterisation of `nar_Custom_Dataset.__init__` -/

theorem narInit_train_ok {fs : FS} {m : List SymProblem} {dir : String}
    {T : Nat} {n : nar_Custom_Dataset}
    (h : nar_Custom_Dataset.init fs m dir T true = .ok n) :
    ∃ p0 ex0 imageRows optionRows solRows,
      getHyd fs (AnalogicalReasoningDataset.init m dir 0 T) 0 = .ok p0 ∧
      natGet p0.examples 0 = .ok ex0 ∧
      mapE (fun task =>
          mapE (trainImageItem fs (AnalogicalReasoningDataset.init m dir 0 T) task)
            (List.range p0.examples.length)) (List.range T) = .ok imageRows ∧
      n.images = imageRows.flatten ∧
      mapE (fun task =>
          mapE (fun i => do
              let inner ← mapE
                (trainOptionItem fs (AnalogicalReasoningDataset.init m dir 0 T) task i)
                (List.range ex0.options.length)
              torch_stack inner)
            (List.range p0.examples.length)) (List.range T) = .ok optionRows ∧
      n.options = optionRows.flatten ∧
      mapE (fun task =>
          mapE (trainSolutionItem fs (AnalogicalReasoningDataset.init m dir 0 T) task)
            (List.range p0.examples.length)) (List.range T) = .ok solRows ∧
      n.solution = solRows.flatten := by
  have h' : (getHyd fs (AnalogicalReasoningDataset.init m dir 0 T) 0 >>= fun p0 =>
      natGet p0.examples 0 >>= fun ex0 =>
      mapE (fun task =>
          mapE (trainImageItem fs (AnalogicalReasoningDataset.init m dir 0 T) task)
            (List.range p0.examples.length)) (List.range T) >>= fun imageRows =>
      torch_stack imageRows.flatten >>= fun images =>
      mapE (fun task =>
          mapE (fun i => do
              let inner ← mapE
                (trainOptionItem fs (AnalogicalReasoningDataset.init m dir 0 T) task i)
                (List.range ex0.options.length)
              torch_stack inner)
            (List.range p0.examples.length)) (List.range T) >>= fun optionRows =>
      torch_stack2 optionRows.flatten >>= fun options =>
      mapE (fun task =>
          mapE (trainSolutionItem fs (AnalogicalReasoningDataset.init m dir 0 T) task)
            (List.range p0.examples.length)) (List.range T) >>= fun solRows =>
      torch_stack solRows.flatten >>= fun solution =>
      pure (⟨images, options, solution⟩ : nar_Custom_Dataset)) = .ok n := h
  rcases bind_ok_iff.mp h' with ⟨p0, hp0, h2⟩
  rcases bind_ok_iff.mp h2 with ⟨ex0, hex0, h3⟩
  rcases bind_ok_iff.mp h3 with ⟨imageRows, himgRows, h4⟩
  rcases bind_ok_iff.mp h4 with ⟨images, himgs, h5⟩
  rcases bind_ok_iff.mp h5 with ⟨optionRows, hoptRows, h6⟩
  rcases bind_ok_iff.mp h6 with ⟨options, hopts, h7⟩
  rcases bind_ok_iff.mp h7 with ⟨solRows, hsolRows, h8⟩
  rcases bind_ok_iff.mp h8 with ⟨solution, hsols, h9⟩
  rw [exc_pure] at h9
  cases h9
  exact ⟨p0, ex0, imageRows, optionRows, solRows, hp0, hex0, himgRows,
    (torch_stack_ok himgs).1, hoptRows, (torch_stack2_ok hopts).1, hsolRows,
    (torch_stack_ok hsols).1⟩

theorem narInit_eval_ok {fs : FS} {m : List SymProblem} {dir : String}
    {T : Nat} {n : nar_Custom_Dataset}
    (h : nar_Custom_Dataset.init fs m dir T false = .ok n) :
    ∃ p0 imageRow optionRow solRow,
      getHyd fs (AnalogicalReasoningDataset.init m dir 0 T) 0 = .ok p0 ∧
      mapE (evalImageItem fs (AnalogicalReasoningDataset.init m dir 0 T))
        (List.range T) = .ok imageRow ∧
      n.images = imageRow ∧
      mapE (fun task => do
          let inner ← mapE
            (evalOptionItem fs (AnalogicalReasoningDataset.init m dir 0 T) task)
            (List.range p0.query_options.length)
          torch_stack inner) (List.range T) = .ok optionRow ∧
      n.options = optionRow ∧
      mapE (evalSolutionItem fs (AnalogicalReasoningDataset.init m dir 0 T))
        (List.range T) = .ok solRow ∧
      n.solution = solRow := by
  have h' : (getHyd fs (AnalogicalReasoningDataset.init m dir 0 T) 0 >>= fun p0 =>
      mapE (evalImageItem fs (AnalogicalReasoningDataset.init m dir 0 T))
        (List.range T) >>= fun imageRow =>
      torch_stack imageRow >>= fun images =>
      mapE (fun task => do
          let inner ← mapE
            (evalOptionItem fs (AnalogicalReasoningDataset.init m dir 0 T) task)
            (List.range p0.query_options.length)
          torch_stack inner) (List.range T) >>= fun optionRow =>
      torch_stack2 optionRow >>= fun options =>
      mapE (evalSolutionItem fs (AnalogicalReasoningDataset.init m dir 0 T))
        (List.range T) >>= fun solRow =>
      torch_stack solRow >>= fun solution =>
      pure (⟨images, options, solution⟩ : nar_Custom_Dataset)) = .ok n := h
  rcases bind_ok_iff.mp h' with ⟨p0, hp0, h2⟩
  rcases bind_ok_iff.mp h2 with ⟨imageRow, himgRow, h3⟩
  rcases bind_ok_iff.mp h3 with ⟨images, himgs, h4⟩
  rcases bind_ok_iff.mp h4 with ⟨optionRow, hoptRow, h5⟩
  rcases bind_ok_iff.mp h5 with ⟨options, hopts, h6⟩
  rcases bind_ok_iff.mp h6 with ⟨solRow, hsolRow, h7⟩
  rcases bind_ok_iff.mp h7 with ⟨solution, hsols, h8⟩
  rw [exc_pure] at h8
  cases h8
  exact ⟨p0, imageRow, optionRow, solRow, hp0, himgRow,
    (torch_stack_ok himgs).1, hoptRow, (torch_stack2_ok hopts).1, hsolRow,
    (torch_stack_ok hsols).1⟩



theorem natGet_ok {α : Type} {l : List α} {i : Nat} {a : α}
    (h : natGet l i = .ok a) : l[i]? = some a := by
  unfold natGet at h
  cases hx : l[i]? with
  | some b =>
    rw [hx] at h
    cases h
    rfl
  | none =>
    rw [hx] at h
    cases h

theorem read_image_src {fs : FS} {path : String} {img : Img}
    (h : read_image fs path = .ok img) : img.src = path := by
  unfold read_image at h
  cases hx : fs path with
  | some s =>
    rw [hx] at h
    cases h
    rfl
  | none =>
    rw [hx] at h
    cases h


theorem getitem_src_spec {fs : FS} {d : AnalogicalReasoningDataset} {idx : Int}
    {sym : SymProblem} {hyd : HydProblem}
    (h : d.getitem fs idx = .ok (sym, hyd)) :
    hyd.query.src = query_path d.image_dir idx ∧
    (∀ (e : Nat) (he : HydExample), hyd.examples[e]? = some he →
        he.input.src = input_path d.image_dir idx e ∧
        ∀ (o : Nat) (img : Img), he.options[o]? = some img →
            img.src = option_path d.image_dir idx e o) ∧
    (∀ (o : Nat) (img : Img), hyd.query_options[o]? = some img →
        img.src = query_option_path d.image_dir idx o) := by
  obtain ⟨-, hhex, hq, hhqo, -, -⟩ := getitem_ok h
  obtain ⟨hexlen, hexpt⟩ := hydrateExamples_ok hhex
  obtain ⟨hqolen, hqopt⟩ := hydrateQueryOptions_ok hhqo
  refine ⟨read_image_src hq, ?_, ?_⟩
  · intro e he hhe
    obtain ⟨helt, -⟩ := List.getElem?_eq_some.mp hhe
    rw [hexlen] at helt
    obtain ⟨he2, hhe2, hin, hopts, -⟩ := hexpt e _ (List.getElem?_eq_getElem helt)
    rw [hhe] at hhe2
    cases hhe2
    obtain ⟨holen, hopt⟩ := hydrateOptions_ok hopts
    refine ⟨by simpa using read_image_src hin, ?_⟩
    intro o img hoimg
    obtain ⟨holt, -⟩ := List.getElem?_eq_some.mp hoimg
    rw [holen] at holt
    obtain ⟨img2, himg2, hread⟩ := hopt o holt
    rw [hoimg] at himg2
    cases himg2
    simpa using read_image_src hread
  · intro o img hoimg
    obtain ⟨holt, -⟩ := List.getElem?_eq_some.mp hoimg
    rw [hqolen] at holt
    obtain ⟨img2, himg2, hread⟩ := hqopt o holt
    rw [hoimg] at himg2
    cases himg2
    simpa using read_image_src hread

/-! ## The claims -/

/-- C1: for every valid index of a Problem Loader over a well-formed
manifest, the symbolic and hydrated forms returned by `__getitem__`
agree structurally: same number of examples, same number of options in
each corresponding example, same number of query options, identical
per-example solution, problem solution and program fields. -/
theorem problemLoader_sym_hyd_agree
    (fs : FS) (d : AnalogicalReasoningDataset) (idx : Int)
    (sym : SymProblem) (hyd : HydProblem)
    (h : d.getitem fs idx = .ok (sym, hyd)) :
    hyd.examples.length = sym.examples.length ∧
    (∀ (j : Nat) (se : SymExample) (he : HydExample),
        sym.examples[j]? = some se → hyd.examples[j]? = some he →
        he.options.length = se.options.length ∧ he.solution = se.solution) ∧
    hyd.query_options.length = sym.query_options.length ∧
    hyd.solution = sym.solution ∧
    hyd.program = sym.program := by
  obtain ⟨-, hhex, -, hhqo, hsol, hprog⟩ := getitem_ok h
  obtain ⟨hexlen, hexpt⟩ := hydrateExamples_ok hhex
  refine ⟨hexlen, ?_, (hydrateQueryOptions_ok hhqo).1, hsol, hprog⟩
  intro j se he hse hhe
  obtain ⟨he2, hhe2, -, hopts, hsol2⟩ := hexpt j se hse
  rw [hhe] at hhe2
  cases hhe2
  exact ⟨(hydrateOptions_ok hopts).1, hsol2⟩

/-- Witness for C1 at a concrete input: the loader over `demoManifest`
returns `(demoProblem, demoHyd0)` at index 0, and the structural
agreement holds there. -/
theorem problemLoader_sym_hyd_agree_witness :
    ((AnalogicalReasoningDataset.init demoManifest "imgs" 0 2).getitem allFiles 0 =
        .ok (demoProblem, demoHyd0)) ∧
    demoHyd0.examples.length = demoProblem.examples.length ∧
    demoHyd0.query_options.length = demoProblem.query_options.length ∧
    demoHyd0.solution = demoProblem.solution ∧
    demoHyd0.program = demoProblem.program := by
  have h := problemLoader_sym_hyd_agree allFiles
    (AnalogicalReasoningDataset.init demoManifest "imgs" 0 2) 0
    demoProblem demoHyd0 (by rfl)
  exact ⟨by rfl, h.1, h.2.2.1, h.2.2.2.1, h.2.2.2.2⟩


/-- C5 counterexample: over a one-problem manifest with bounds
`[0, 3)`, the Problem Loader stores `size = 3` but `__len__` returns 1
(the length of the clamped slice), not `rangeEnd - rangeStart = 3`. -/
theorem problemLoader_length_cex :
    (AnalogicalReasoningDataset.init [demoProblem] "imgs" 0 3).size = 3 ∧
    (AnalogicalReasoningDataset.init [demoProblem] "imgs" 0 3).length ≠ 3 - 0 := by
  decide

/-- C5 amended: `Length()` returns the length of the retained slice
`[rangeStart, rangeEnd)`, which equals `rangeEnd - rangeStart` whenever
`rangeStart ≤ rangeEnd ≤ len(manifest)`; on a shorter manifest the
slice — and hence `Length()` — is clamped. -/
theorem problemLoader_length_eq
    (m : List SymProblem) (dir : String) (size1 size2 : Nat)
    (h1 : size1 ≤ size2) (h2 : size2 ≤ m.length) :
    (AnalogicalReasoningDataset.init m dir size1 size2).length = size2 - size1 := by
  simp only [AnalogicalReasoningDataset.init, AnalogicalReasoningDataset.length,
    List.length_drop, List.length_take]
  omega

/-- Witness for C5 amended at a concrete input. -/
theorem problemLoader_length_eq_witness :
    (0 ≤ 2 ∧ 2 ≤ demoManifest.length) ∧
    (AnalogicalReasoningDataset.init demoManifest "imgs" 0 2).length = 2 - 0 :=
  ⟨by decide, problemLoader_length_eq demoManifest "imgs" 0 2 (by decide) (by decide)⟩

/-- C6 counterexample: `Get(-1)` does not fail with an out-of-range
error.  On a Flattened Task Dataset built over `demoManifest` the call
`Get(-1)` succeeds (negative indices wrap to the end, Python sequence
semantics), and on the Problem Loader `Get(-1)` likewise returns the
last problem (hydrated here against a file system on which every
filename resolves). -/
theorem get_neg_one_cex :
    isOk ((nar_Custom_Dataset.init allFiles demoManifest "imgs" 2 true) >>=
      (fun n => n.getitem (-1))) = true ∧
    isOk ((AnalogicalReasoningDataset.init demoManifest "imgs" 0 2).getitem
      allFiles (-1)) = true := by
  exact ⟨by rfl, by rfl⟩

/-- C6 amended: for both the Problem Loader and the Flattened Task
Dataset, `Get(index)` fails with an out-of-range (`IndexError`) exactly
when `index` is outside `[-Length(), Length())`; in particular
`Get(Length())` fails, but `Get(-1)` wraps to the last element. -/
theorem get_out_of_range :
    (∀ (fs : FS) (d : AnalogicalReasoningDataset) (idx : Int),
        ((d.length : Int) ≤ idx ∨ idx < -(d.length : Int)) →
        d.getitem fs idx = .error .indexError) ∧
    (∀ (n : nar_Custom_Dataset) (idx : Int),
        ((n.length : Int) ≤ idx ∨ idx < -(n.length : Int)) →
        n.getitem idx = .error .indexError) := by
  constructor
  · intro fs d idx h
    have hp : pyGet d.problems idx = .error .indexError := pyGet_oob _ _ h
    show (pyGet d.problems idx >>= fun problem => _) = _
    rw [hp, exc_bind_error]
  · intro n idx h
    have hp : pyGet n.images idx = .error .indexError := pyGet_oob _ _ h
    show (pyGet n.images idx >>= fun i => _) = _
    rw [hp, exc_bind_error]

/-- Witness for C6 amended: `Get(Length())` fails with `IndexError` on
a concrete loader (`Length() = 2`) and on a concrete one-row flattened
dataset (`Length() = 1`). -/
theorem get_out_of_range_witness :
    (((AnalogicalReasoningDataset.init demoManifest "imgs" 0 2).length : Int) ≤ 2 ∨
        (2 : Int) < -((AnalogicalReasoningDataset.init demoManifest "imgs" 0 2).length : Int)) ∧
    (AnalogicalReasoningDataset.init demoManifest "imgs" 0 2).getitem allFiles 2 =
      .error .indexError ∧
    (((nar_Custom_Dataset.mk [⟨1, 4, 4, "x"⟩] [[⟨1, 4, 4, "x"⟩]] [⟨1, 4, 4, "x"⟩]).length : Int) ≤ 1 ∨
        (1 : Int) < -((nar_Custom_Dataset.mk [⟨1, 4, 4, "x"⟩] [[⟨1, 4, 4, "x"⟩]] [⟨1, 4, 4, "x"⟩]).length : Int)) ∧
    (nar_Custom_Dataset.mk [⟨1, 4, 4, "x"⟩] [[⟨1, 4, 4, "x"⟩]] [⟨1, 4, 4, "x"⟩]).getitem 1 =
      .error .indexError :=
  ⟨by decide,
    get_out_of_range.1 allFiles
      (AnalogicalReasoningDataset.init demoManifest "imgs" 0 2) 2 (by decide),
    by decide,
    get_out_of_range.2
      (nar_Custom_Dataset.mk [⟨1, 4, 4, "x"⟩] [[⟨1, 4, 4, "x"⟩]] [⟨1, 4, 4, "x"⟩]) 1
      (by decide)⟩


/-- C2: the Flattened Task Dataset's `Length()` equals
`taskCount * numExamples` in train mode, where `numExamples` is the
example count of problem 0's hydrated form, and equals `taskCount` in
evaluation mode. -/
theorem narDataset_length (fs : FS) (m : List SymProblem) (dir : String) (T : Nat) :
    (∀ (n : nar_Custom_Dataset) (p0 : HydProblem),
        nar_Custom_Dataset.init fs m dir T true = .ok n →
        getHyd fs (AnalogicalReasoningDataset.init m dir 0 T) 0 = .ok p0 →
        n.length = T * p0.examples.length) ∧
    (∀ n : nar_Custom_Dataset,
        nar_Custom_Dataset.init fs m dir T false = .ok n →
        n.length = T) := by
  constructor
  · intro n p0 hn hp0
    obtain ⟨q0, ex0, imageRows, optionRows, solRows, hq0, hex0, himgRows,
      himages, -, -, -, -⟩ := narInit_train_ok hn
    rw [hp0] at hq0
    cases hq0
    have hrowlen : ∀ row ∈ imageRows, row.length = p0.examples.length := by
      intro row hrow
      obtain ⟨task, -, hrow⟩ := mapE_ok_mem_rev himgRows hrow
      have := mapE_ok_length hrow
      simpa using this
    have hT : imageRows.length = T := by
      simpa using mapE_ok_length himgRows
    show n.images.length = T * p0.examples.length
    rw [himages, flatten_length_uniform hrowlen, hT]
  · intro n hn
    obtain ⟨p0, imageRow, optionRow, solRow, -, himgRow, himages, -, -, -, -⟩ :=
      narInit_eval_ok hn
    show n.images.length = T
    rw [himages]
    simpa using mapE_ok_length himgRow

/-- Witness for C2 at concrete inputs: over `demoManifest` with
`taskCount = 2`, train mode yields `Length() = 2 * 1` and evaluation
mode yields `Length() = 2`. -/
theorem narDataset_length_witness :
    (nar_Custom_Dataset.init allFiles demoManifest "imgs" 2 true = .ok demoNarTrain ∧
      getHyd allFiles (AnalogicalReasoningDataset.init demoManifest "imgs" 0 2) 0 =
        .ok demoHyd0 ∧
      demoNarTrain.length = 2 * demoHyd0.examples.length) ∧
    (nar_Custom_Dataset.init allFiles demoManifest "imgs" 2 false = .ok demoNarEval ∧
      demoNarEval.length = 2) :=
  ⟨⟨by rfl, by rfl,
      (narDataset_length allFiles demoManifest "imgs" 2).1 demoNarTrain demoHyd0
        (by rfl) (by rfl)⟩,
    ⟨by rfl,
      (narDataset_length allFiles demoManifest "imgs" 2).2 demoNarEval (by rfl)⟩⟩


/-- C3: the `solution` row stored by the Flattened Task Dataset for a
given position is the grayscale-reduced image of the option selected by
that example's solution index (train mode), respectively of the query
option selected by the problem's solution index (evaluation mode) — the
correct-answer image itself, not the index. -/
theorem narDataset_solution_row :
    (∀ (fs : FS) (m : List SymProblem) (dir : String) (T : Nat)
        (n : nar_Custom_Dataset) (p0 hp : HydProblem) (task i : Nat)
        (ex : HydExample) (o : Img),
        nar_Custom_Dataset.init fs m dir T true = .ok n →
        getHyd fs (AnalogicalReasoningDataset.init m dir 0 T) 0 = .ok p0 →
        task < T → i < p0.examples.length →
        getHyd fs (AnalogicalReasoningDataset.init m dir 0 T) (task : Int) = .ok hp →
        natGet hp.examples i = .ok ex →
        pyGet ex.options ex.solution = .ok o →
        n.solution[task * p0.examples.length + i]? = some (Grayscale o)) ∧
    (∀ (fs : FS) (m : List SymProblem) (dir : String) (T : Nat)
        (n : nar_Custom_Dataset) (hp : HydProblem) (task : Nat) (o : Img),
        nar_Custom_Dataset.init fs m dir T false = .ok n →
        task < T →
        getHyd fs (AnalogicalReasoningDataset.init m dir 0 T) (task : Int) = .ok hp →
        pyGet hp.query_options hp.solution = .ok o →
        n.solution[task]? = some (Grayscale o)) := by
  constructor
  · intro fs m dir T n p0 hp task i ex o hn hp0 htask hi hhp hex ho
    obtain ⟨q0, ex0, imageRows, optionRows, solRows, hq0, hex0, -, -, -, -,
      hsolRows, hsol⟩ := narInit_train_ok hn
    rw [hp0] at hq0
    cases hq0
    have hrowlen : ∀ row ∈ solRows, row.length = p0.examples.length := by
      intro row hrow
      obtain ⟨task2, -, hrow⟩ := mapE_ok_mem_rev hsolRows hrow
      simpa using mapE_ok_length hrow
    have hT : solRows.length = T := by simpa using mapE_ok_length hsolRows
    obtain ⟨row, hrowEq, hrowMap⟩ :=
      mapE_range_ok_getElem hsolRows (by omega : task < T)
    obtain ⟨b, hb, hitem⟩ := mapE_range_ok_getElem hrowMap hi
    have hval : trainSolutionItem fs (AnalogicalReasoningDataset.init m dir 0 T)
        task i = .ok (Grayscale o) := by
      show (getHyd fs (AnalogicalReasoningDataset.init m dir 0 T) (task : Int) >>=
          fun hp => natGet hp.examples i >>= fun ex =>
          pyGet ex.options ex.solution >>= fun o => pure (Grayscale o)) = _
      rw [hhp, exc_bind_ok, hex, exc_bind_ok, ho, exc_bind_ok, exc_pure]
    rw [hitem] at hval
    cases hval
    rw [hsol, flatten_getElem_uniform hrowlen (by omega) hi, hrowEq]
    simpa using hb
  · intro fs m dir T n hp task o hn htask hhp ho
    obtain ⟨p0, imageRow, optionRow, solRow, -, -, -, -, -, hsolRow, hsol⟩ :=
      narInit_eval_ok hn
    obtain ⟨b, hb, hitem⟩ := mapE_range_ok_getElem hsolRow htask
    have hval : evalSolutionItem fs (AnalogicalReasoningDataset.init m dir 0 T)
        task = .ok (Grayscale o) := by
      show (getHyd fs (AnalogicalReasoningDataset.init m dir 0 T) (task : Int) >>=
          fun hp => pyGet hp.query_options hp.solution >>= fun o =>
          pure (Grayscale o)) = _
      rw [hhp, exc_bind_ok, ho, exc_bind_ok, exc_pure]
    rw [hitem] at hval
    cases hval
    rw [hsol, hb]

/-- Witness for C3 at concrete inputs: in train mode, row
`task = 1, i = 0` of the `solution` tensor is the grayscale of option 1
(problem 1's example solution index) — the answer image itself; in
evaluation mode, row `task = 0` is the grayscale of query option 0. -/
theorem narDataset_solution_row_witness :
    (nar_Custom_Dataset.init allFiles demoManifest "imgs" 2 true = .ok demoNarTrain ∧
      getHyd allFiles (AnalogicalReasoningDataset.init demoManifest "imgs" 0 2) 0 =
        .ok demoHyd0 ∧
      1 < 2 ∧ 0 < demoHyd0.examples.length ∧
      getHyd allFiles (AnalogicalReasoningDataset.init demoManifest "imgs" 0 2)
        ((1 : Nat) : Int) = .ok demoHyd1 ∧
      natGet demoHyd1.examples 0 = .ok demoHydEx1 ∧
      pyGet demoHydEx1.options demoHydEx1.solution =
        .ok ⟨3, 4, 4, "imgs/1_0_1_option.png"⟩ ∧
      demoNarTrain.solution[1 * demoHyd0.examples.length + 0]? =
        some (Grayscale ⟨3, 4, 4, "imgs/1_0_1_option.png"⟩)) ∧
    (nar_Custom_Dataset.init allFiles demoManifest "imgs" 2 false = .ok demoNarEval ∧
      0 < 2 ∧
      getHyd allFiles (AnalogicalReasoningDataset.init demoManifest "imgs" 0 2)
        ((0 : Nat) : Int) = .ok demoHyd0 ∧
      pyGet demoHyd0.query_options demoHyd0.solution =
        .ok ⟨3, 4, 4, "imgs/0_0_query_option.png"⟩ ∧
      demoNarEval.solution[(0 : Nat)]? =
        some (Grayscale ⟨3, 4, 4, "imgs/0_0_query_option.png"⟩)) :=
  ⟨⟨by rfl, by rfl, by decide, by decide, by rfl, by rfl, by rfl,
      narDataset_solution_row.1 allFiles demoManifest "imgs" 2 demoNarTrain
        demoHyd0 demoHyd1 1 0 demoHydEx1 ⟨3, 4, 4, "imgs/1_0_1_option.png"⟩
        (by rfl) (by rfl) (by decide) (by decide) (by rfl) (by rfl) (by rfl)⟩,
    ⟨by rfl, by decide, by rfl, by rfl,
      narDataset_solution_row.2 allFiles demoManifest "imgs" 2 demoNarEval
        demoHyd0 0 ⟨3, 4, 4, "imgs/0_0_query_option.png"⟩
        (by rfl) (by decide) (by rfl) (by rfl)⟩⟩


/-- C4: the hydrated form of `Get(index)` loads its images by the exact
filename convention — example `e`'s input from
`{imageDir}/{index}_{e}_input.png`, its option `o` from
`{imageDir}/{index}_{e}_{o}_option.png` for every option index of the
symbolic option list, the query from `{imageDir}/{index}_query.png`,
query option `o` from `{imageDir}/{index}_{o}_query_option.png` for
every index of the symbolic `query_options` list — and reuses the
symbolic solution and program fields unchanged. -/
theorem problemLoader_filenames
    (fs : FS) (d : AnalogicalReasoningDataset) (idx : Int)
    (sym : SymProblem) (hyd : HydProblem)
    (h : d.getitem fs idx = .ok (sym, hyd)) :
    (∀ (e : Nat) (he : HydExample), hyd.examples[e]? = some he →
        read_image fs (input_path d.image_dir idx e) = .ok he.input ∧
        (∀ (o : Nat) (img : Img), he.options[o]? = some img →
            read_image fs (option_path d.image_dir idx e o) = .ok img) ∧
        (∀ se : SymExample, sym.examples[e]? = some se →
            he.options.length = se.options.length ∧ he.solution = se.solution)) ∧
    read_image fs (query_path d.image_dir idx) = .ok hyd.query ∧
    (∀ (o : Nat) (img : Img), hyd.query_options[o]? = some img →
        read_image fs (query_option_path d.image_dir idx o) = .ok img) ∧
    hyd.query_options.length = sym.query_options.length ∧
    hyd.solution = sym.solution ∧
    hyd.program = sym.program := by
  obtain ⟨-, hhex, hq, hhqo, hsol, hprog⟩ := getitem_ok h
  obtain ⟨hexlen, hexpt⟩ := hydrateExamples_ok hhex
  obtain ⟨hqolen, hqopt⟩ := hydrateQueryOptions_ok hhqo
  refine ⟨?_, hq, ?_, hqolen, hsol, hprog⟩
  · intro e he hhe
    obtain ⟨helt, -⟩ := List.getElem?_eq_some.mp hhe
    rw [hexlen] at helt
    obtain ⟨he2, hhe2, hin, hopts, hsol2⟩ :=
      hexpt e _ (List.getElem?_eq_getElem helt)
    rw [hhe] at hhe2
    cases hhe2
    obtain ⟨holen, hopt⟩ := hydrateOptions_ok hopts
    refine ⟨by simpa using hin, ?_, ?_⟩
    · intro o img hoimg
      obtain ⟨holt, -⟩ := List.getElem?_eq_some.mp hoimg
      rw [holen] at holt
      obtain ⟨img2, himg2, hread⟩ := hopt o holt
      rw [hoimg] at himg2
      cases himg2
      simpa using hread
    · intro se hse
      rw [List.getElem?_eq_getElem helt] at hse
      cases hse
      exact ⟨holen, hsol2⟩
  · intro o img hoimg
    obtain ⟨holt, -⟩ := List.getElem?_eq_some.mp hoimg
    rw [hqolen] at holt
    obtain ⟨img2, himg2, hread⟩ := hqopt o holt
    rw [hoimg] at himg2
    cases himg2
    simpa using hread

/-- Witness for C4 at a concrete input: the loader over `demoManifest`
at index 0 reads exactly the conventionally named files. -/
theorem problemLoader_filenames_witness :
    ((AnalogicalReasoningDataset.init demoManifest "imgs" 0 2).getitem allFiles 0 =
        .ok (demoProblem, demoHyd0)) ∧
    read_image allFiles (input_path "imgs" 0 0) =
      .ok ⟨3, 4, 4, "imgs/0_0_input.png"⟩ ∧
    read_image allFiles (option_path "imgs" 0 0 1) =
      .ok ⟨3, 4, 4, "imgs/0_0_1_option.png"⟩ ∧
    read_image allFiles (query_path "imgs" 0) = .ok demoHyd0.query ∧
    read_image allFiles (query_option_path "imgs" 0 1) =
      .ok ⟨3, 4, 4, "imgs/0_1_query_option.png"⟩ ∧
    demoHyd0.solution = demoProblem.solution ∧
    demoHyd0.program = demoProblem.program := by
  have h := problemLoader_filenames allFiles
    (AnalogicalReasoningDataset.init demoManifest "imgs" 0 2) 0
    demoProblem demoHyd0 (by rfl)
  obtain ⟨hex, hq, hqo, -, hsol, hprog⟩ := h
  have h0 := hex 0
    ⟨⟨3, 4, 4, "imgs/0_0_input.png"⟩,
      [⟨3, 4, 4, "imgs/0_0_0_option.png"⟩, ⟨3, 4, 4, "imgs/0_0_1_option.png"⟩], 1⟩
    (by rfl)
  exact ⟨by rfl, h0.1, h0.2.1 1 _ (by rfl), hq, hqo 1 _ (by rfl), hsol, hprog⟩


/-- C7 counterexample: on a manifest whose example has
`solution = 1 = len(options)`, the Problem Loader's `Get(0)` succeeds
and returns the violating hydrated record — nothing fails or rejects
it. -/
theorem solution_invariant_cex :
    (AnalogicalReasoningDataset.init [badProblem] "imgs" 0 1).getitem allFiles 0 =
      .ok (badProblem, badHyd) ∧
    badHyd.examples.map (fun e => (e.solution, (e.options.length : Int))) =
      [(1, 1)] :=
  ⟨by rfl, by rfl⟩

/-- C7 amended: the Problem Loader performs no validation — `Get`
copies the symbolic solution through even when it equals
`len(options)`.  What does hold is weaker and indirect: when
construction of the Flattened Task Dataset succeeds, every solution
index it materialised was a valid Python index into its option list
(`-len(options) ≤ solution < len(options)`), because `options[solution]`
was evaluated during construction; a violating input makes that
construction fail. -/
theorem narInit_validates_solutions :
    (∀ (fs : FS) (m : List SymProblem) (dir : String) (T : Nat)
        (n : nar_Custom_Dataset) (p0 hp : HydProblem) (task i : Nat)
        (ex : HydExample),
        nar_Custom_Dataset.init fs m dir T true = .ok n →
        getHyd fs (AnalogicalReasoningDataset.init m dir 0 T) 0 = .ok p0 →
        task < T → i < p0.examples.length →
        getHyd fs (AnalogicalReasoningDataset.init m dir 0 T) (task : Int) = .ok hp →
        natGet hp.examples i = .ok ex →
        isOk (pyGet ex.options ex.solution) = true) ∧
    (∀ (fs : FS) (m : List SymProblem) (dir : String) (T : Nat)
        (n : nar_Custom_Dataset) (hp : HydProblem) (task : Nat),
        nar_Custom_Dataset.init fs m dir T false = .ok n →
        task < T →
        getHyd fs (AnalogicalReasoningDataset.init m dir 0 T) (task : Int) = .ok hp →
        isOk (pyGet hp.query_options hp.solution) = true) := by
  constructor
  · intro fs m dir T n p0 hp task i ex hn hp0 htask hi hhp hex
    obtain ⟨q0, ex0, imageRows, optionRows, solRows, hq0, hex0, -, -, -, -,
      hsolRows, -⟩ := narInit_train_ok hn
    rw [hp0] at hq0
    cases hq0
    obtain ⟨row, -, hrowMap⟩ := mapE_range_ok_getElem hsolRows htask
    obtain ⟨b, -, hitem⟩ := mapE_range_ok_getElem hrowMap hi
    have h' : (getHyd fs (AnalogicalReasoningDataset.init m dir 0 T) (task : Int) >>=
        fun hp => natGet hp.examples i >>= fun ex =>
        pyGet ex.options ex.solution >>= fun o => pure (Grayscale o)) = .ok b := hitem
    rcases bind_ok_iff.mp h' with ⟨hp2, hhp2, h2⟩
    rw [hhp] at hhp2
    cases hhp2
    rcases bind_ok_iff.mp h2 with ⟨ex2, hex2, h3⟩
    rw [hex] at hex2
    cases hex2
    rcases bind_ok_iff.mp h3 with ⟨o, ho, -⟩
    rw [ho]
    rfl
  · intro fs m dir T n hp task hn htask hhp
    obtain ⟨p0, imageRow, optionRow, solRow, -, -, -, -, -, hsolRow, -⟩ :=
      narInit_eval_ok hn
    obtain ⟨b, -, hitem⟩ := mapE_range_ok_getElem hsolRow htask
    have h' : (getHyd fs (AnalogicalReasoningDataset.init m dir 0 T) (task : Int) >>=
        fun hp => pyGet hp.query_options hp.solution >>= fun o =>
        pure (Grayscale o)) = .ok b := hitem
    rcases bind_ok_iff.mp h' with ⟨hp2, hhp2, h2⟩
    rw [hhp] at hhp2
    cases hhp2
    rcases bind_ok_iff.mp h2 with ⟨o, ho, -⟩
    rw [ho]
    rfl

/-- Witness for C7 amended at concrete inputs. -/
theorem narInit_validates_solutions_witness :
    (nar_Custom_Dataset.init allFiles demoManifest "imgs" 2 true = .ok demoNarTrain ∧
      getHyd allFiles (AnalogicalReasoningDataset.init demoManifest "imgs" 0 2) 0 =
        .ok demoHyd0 ∧
      0 < 2 ∧ 0 < demoHyd0.examples.length ∧
      getHyd allFiles (AnalogicalReasoningDataset.init demoManifest "imgs" 0 2)
        ((0 : Nat) : Int) = .ok demoHyd0 ∧
      natGet demoHyd0.examples 0 =
        .ok ⟨⟨3, 4, 4, "imgs/0_0_input.png"⟩,
          [⟨3, 4, 4, "imgs/0_0_0_option.png"⟩, ⟨3, 4, 4, "imgs/0_0_1_option.png"⟩], 1⟩ ∧
      isOk (pyGet [⟨3, 4, 4, "imgs/0_0_0_option.png"⟩,
        (⟨3, 4, 4, "imgs/0_0_1_option.png"⟩ : Img)] 1) = true) ∧
    (nar_Custom_Dataset.init allFiles demoManifest "imgs" 2 false = .ok demoNarEval ∧
      0 < 2 ∧
      getHyd allFiles (AnalogicalReasoningDataset.init demoManifest "imgs" 0 2)
        ((0 : Nat) : Int) = .ok demoHyd0 ∧
      isOk (pyGet demoHyd0.query_options demoHyd0.solution) = true) :=
  ⟨⟨by rfl, by rfl, by decide, by decide, by rfl, by rfl,
      narInit_validates_solutions.1 allFiles demoManifest "imgs" 2 demoNarTrain
        demoHyd0 demoHyd0 0 0
        ⟨⟨3, 4, 4, "imgs/0_0_input.png"⟩,
          [⟨3, 4, 4, "imgs/0_0_0_option.png"⟩, ⟨3, 4, 4, "imgs/0_0_1_option.png"⟩], 1⟩
        (by rfl) (by rfl) (by decide) (by decide) (by rfl) (by rfl)⟩,
    ⟨by rfl, by decide, by rfl,
      narInit_validates_solutions.2 allFiles demoManifest "imgs" 2 demoNarEval
        demoHyd0 0 (by rfl) (by decide) (by rfl)⟩⟩

/-- C8 counterexample: a manifest whose problem 1 has two examples
while problem 0 (which fixes `num_examples = 1`) has one — construction
of the Flattened Task Dataset in train mode completes successfully,
silently ignoring the extra example; it does not fail with any
stacking error. -/
theorem uneven_counts_cex :
    isOk (nar_Custom_Dataset.init allFiles unevenManifest "imgs" 2 true) = true ∧
    unevenManifest.map (fun p => p.examples.length) = [1, 2] :=
  ⟨by rfl, by rfl⟩

/-- C8 amended: the uniform-count assumption is enforced only in one
direction, and not by a stacking error: successful train-mode
construction implies every problem has *at least* problem 0's example
count and every materialised example at least example (0,0)'s option
count (a shortfall surfaces as an `IndexError` during materialisation,
before any stack); problems with *more* examples or options construct
successfully, the extras ignored. -/
theorem narInit_count_lower_bounds
    (fs : FS) (m : List SymProblem) (dir : String) (T : Nat)
    (n : nar_Custom_Dataset) (p0 ex0 : _) (task i : Nat)
    (hp : HydProblem) (ex : HydExample)
    (hn : nar_Custom_Dataset.init fs m dir T true = .ok n)
    (hp0 : getHyd fs (AnalogicalReasoningDataset.init m dir 0 T) 0 = .ok p0)
    (hex0 : natGet p0.examples 0 = .ok ex0)
    (htask : task < T)
    (hhp : getHyd fs (AnalogicalReasoningDataset.init m dir 0 T) (task : Int) = .ok hp)
    (hi : i < p0.examples.length)
    (hex : natGet hp.examples i = .ok ex) :
    p0.examples.length ≤ hp.examples.length ∧
    ex0.options.length ≤ ex.options.length := by
  obtain ⟨q0, qex0, imageRows, optionRows, solRows, hq0, hqex0, himgRows, -,
    hoptRows, -, -, -⟩ := narInit_train_ok hn
  rw [hp0] at hq0
  cases hq0
  rw [hex0] at hqex0
  cases hqex0
  constructor
  · obtain ⟨row, -, hrowMap⟩ := mapE_range_ok_getElem himgRows htask
    have hall : ∀ j, j < p0.examples.length → j < hp.examples.length := by
      intro j hj
      obtain ⟨b, -, hitem⟩ := mapE_range_ok_getElem hrowMap hj
      have h' : (getHyd fs (AnalogicalReasoningDataset.init m dir 0 T) (task : Int) >>=
          fun hp => natGet hp.examples j >>= fun ex =>
          pure (Grayscale ex.input)) = .ok b := hitem
      rcases bind_ok_iff.mp h' with ⟨hp2, hhp2, h2⟩
      rw [hhp] at hhp2
      cases hhp2
      rcases bind_ok_iff.mp h2 with ⟨ex2, hex2, -⟩
      obtain ⟨hlt, -⟩ := List.getElem?_eq_some.mp (natGet_ok hex2)
      exact hlt
    by_contra hcon
    exact absurd (hall hp.examples.length (by omega)) (by omega)
  · obtain ⟨orow, -, horowMap⟩ := mapE_range_ok_getElem hoptRows htask
    obtain ⟨ostacked, -, hoitem⟩ := mapE_range_ok_getElem horowMap hi
    have h' : (mapE (trainOptionItem fs (AnalogicalReasoningDataset.init m dir 0 T)
        task i) (List.range ex0.options.length) >>= fun inner =>
        torch_stack inner) = .ok ostacked := hoitem
    rcases bind_ok_iff.mp h' with ⟨inner, hinner, -⟩
    have hall : ∀ j, j < ex0.options.length → j < ex.options.length := by
      intro j hj
      obtain ⟨b, -, hitem⟩ := mapE_range_ok_getElem hinner hj
      have h2 : (getHyd fs (AnalogicalReasoningDataset.init m dir 0 T) (task : Int) >>=
          fun hp => natGet hp.examples i >>= fun ex =>
          natGet ex.options j >>= fun o => pure (Grayscale o)) = .ok b := hitem
      rcases bind_ok_iff.mp h2 with ⟨hp2, hhp2, h3⟩
      rw [hhp] at hhp2
      cases hhp2
      rcases bind_ok_iff.mp h3 with ⟨ex2, hex2, h4⟩
      rw [hex] at hex2
      cases hex2
      rcases bind_ok_iff.mp h4 with ⟨o, ho, -⟩
      obtain ⟨hlt, -⟩ := List.getElem?_eq_some.mp (natGet_ok ho)
      exact hlt
    by_contra hcon
    exact absurd (hall ex.options.length (by omega)) (by omega)

/-- Witness for C8 amended at a concrete input (the uneven manifest:
problem 1's two examples satisfy the lower bound fixed by problem 0). -/
theorem narInit_count_lower_bounds_witness :
    (nar_Custom_Dataset.init allFiles demoManifest "imgs" 2 true = .ok demoNarTrain) ∧
    (demoHyd0.examples.length ≤ demoHyd1.examples.length ∧
      (⟨⟨3, 4, 4, "imgs/0_0_input.png"⟩,
        [⟨3, 4, 4, "imgs/0_0_0_option.png"⟩, ⟨3, 4, 4, "imgs/0_0_1_option.png"⟩], 1⟩ :
          HydExample).options.length ≤ demoHydEx1.options.length) :=
  ⟨by rfl,
    narInit_count_lower_bounds allFiles demoManifest "imgs" 2 demoNarTrain
      demoHyd0
      ⟨⟨3, 4, 4, "imgs/0_0_input.png"⟩,
        [⟨3, 4, 4, "imgs/0_0_0_option.png"⟩, ⟨3, 4, 4, "imgs/0_0_1_option.png"⟩], 1⟩
      1 0 demoHyd1 demoHydEx1
      (by rfl) (by rfl) (by rfl) (by decide) (by rfl) (by decide) (by rfl)⟩


/-- C9: after construction, the Flattened Task Dataset's `Get` is a
pure read.  Expressed on the explicit state-transformer form of the
method (`getitemStep`, whose type involves no file system, so the call
performs no file I/O): a successful call leaves the receiver — all
stored tensors included — unchanged, its value is exactly the stored
rows at `index`, and repeating the call on the post-state returns the
identical triple. -/
theorem narDataset_get_pure
    (n : nar_Custom_Dataset) (idx : Int) (r : Img × List Img × Img)
    (n2 : nar_Custom_Dataset)
    (h : n.getitemStep idx = .ok (r, n2)) :
    n2 = n ∧
    pyGet n.images idx = .ok r.1 ∧
    pyGet n.options idx = .ok r.2.1 ∧
    pyGet n.solution idx = .ok r.2.2 ∧
    n2.getitemStep idx = .ok (r, n2) := by
  have h' : (nar_Custom_Dataset.getitem n idx >>= fun r0 =>
      pure (r0, n)) = .ok (r, n2) := h
  rcases bind_ok_iff.mp h' with ⟨r0, hr0, h2⟩
  rw [exc_pure] at h2
  cases h2
  have h3 : (pyGet n.images idx >>= fun i => pyGet n.options idx >>= fun o =>
      pyGet n.solution idx >>= fun s => pure (i, o, s)) = .ok r := hr0
  rcases bind_ok_iff.mp h3 with ⟨i, hi, h4⟩
  rcases bind_ok_iff.mp h4 with ⟨o, ho, h5⟩
  rcases bind_ok_iff.mp h5 with ⟨s, hs, h6⟩
  rw [exc_pure] at h6
  cases h6
  exact ⟨rfl, hi, ho, hs, h⟩

/-- Witness for C9 at a concrete input. -/
theorem narDataset_get_pure_witness :
    (demoNarTrain.getitemStep 0 = .ok (demoRow0, demoNarTrain)) ∧
    (demoNarTrain = demoNarTrain ∧
      pyGet demoNarTrain.images 0 = .ok demoRow0.1 ∧
      pyGet demoNarTrain.options 0 = .ok demoRow0.2.1 ∧
      pyGet demoNarTrain.solution 0 = .ok demoRow0.2.2 ∧
      demoNarTrain.getitemStep 0 = .ok (demoRow0, demoNarTrain)) :=
  ⟨by rfl, narDataset_get_pure demoNarTrain 0 demoRow0 demoNarTrain (by rfl)⟩

/-- C10: the image filenames used by `Get(i)` are built from the
slice-relative index `i` only — never from `rangeStart` — so two
loaders over any slices (any bounds, any manifests) read exactly the
same files at position `i`: every loaded image's origin is the
conventional path formed from `imageDir` and `i`, identical across the
two loaders. -/
theorem filenames_independent_of_slice
    (fs fs2 : FS) (m m2 : List SymProblem) (dir : String)
    (s1 e1 s2 e2 : Nat) (i : Int)
    (sym sym2 : SymProblem) (hyd hyd2 : HydProblem)
    (h1 : (AnalogicalReasoningDataset.init m dir s1 e1).getitem fs i =
      .ok (sym, hyd))
    (h2 : (AnalogicalReasoningDataset.init m2 dir s2 e2).getitem fs2 i =
      .ok (sym2, hyd2)) :
    (hyd.query.src = query_path dir i ∧ hyd2.query.src = query_path dir i) ∧
    (∀ (e : Nat) (he he2 : HydExample),
        hyd.examples[e]? = some he → hyd2.examples[e]? = some he2 →
        (he.input.src = input_path dir i e ∧ he2.input.src = input_path dir i e) ∧
        ∀ (o : Nat) (img img2 : Img),
            he.options[o]? = some img → he2.options[o]? = some img2 →
            img.src = option_path dir i e o ∧ img2.src = option_path dir i e o) ∧
    (∀ (o : Nat) (img img2 : Img),
        hyd.query_options[o]? = some img → hyd2.query_options[o]? = some img2 →
        img.src = query_option_path dir i o ∧
          img2.src = query_option_path dir i o) := by
  obtain ⟨hq1, hex1, hqo1⟩ := getitem_src_spec h1
  obtain ⟨hq2, hex2, hqo2⟩ := getitem_src_spec h2
  refine ⟨⟨hq1, hq2⟩, ?_, ?_⟩
  · intro e he he2 hhe hhe2
    obtain ⟨hin1, hopt1⟩ := hex1 e he hhe
    obtain ⟨hin2, hopt2⟩ := hex2 e he2 hhe2
    exact ⟨⟨hin1, hin2⟩, fun o img img2 h1o h2o =>
      ⟨hopt1 o img h1o, hopt2 o img2 h2o⟩⟩
  · intro o img img2 h1o h2o
    exact ⟨hqo1 o img h1o, hqo2 o img2 h2o⟩

/-- Witness for C10 at concrete inputs: a loader over `[0, 2)` and a
loader over `[1, 2)` of the same manifest both read the files named
`0_*` at position 0 (the second loader's position 0 holds the
manifest's problem 1, yet the very same files are read). -/
theorem filenames_independent_of_slice_witness :
    ((AnalogicalReasoningDataset.init demoManifest "imgs" 0 2).getitem allFiles 0 =
        .ok (demoProblem, demoHyd0)) ∧
    ((AnalogicalReasoningDataset.init demoManifest "imgs" 1 2).getitem allFiles 0 =
        .ok (demoProblem, demoHyd0)) ∧
    (demoHyd0.query.src = query_path "imgs" 0 ∧
      demoHyd0.query.src = query_path "imgs" 0) := by
  have h := filenames_independent_of_slice allFiles allFiles demoManifest
    demoManifest "imgs" 0 2 1 2 0 demoProblem demoProblem demoHyd0 demoHyd0
    (by rfl) (by rfl)
  exact ⟨by rfl, by rfl, h.1⟩


end NarData
